import Mathlib

/-!
Shallow embedding of the GreenGiant greenhouse backend (Express/Mongoose
routes and middleware) and proofs of the spec's claims about it.

Each definition mirrors one route handler or middleware function of the
source.  HTTP handlers become pure functions from the authenticated caller
and the request inputs to a response together with the state they leave
behind and the Socket.IO events they emit; the edge-device relay outcome
(an external network call) is an explicit boolean parameter.
-/

namespace GreenGiant

/-- `role` enum of the User schema (`src/unnamed/part_001`). -/
inductive Role
  | user
  | admin
  | head_admin
deriving DecidableEq, Repr

/-- `status` enum of the User schema. -/
inductive Status
  | active
  | banned
  | restricted
deriving DecidableEq, Repr

/-- A registered account, as the User schema stores it (password kept
separately, mirroring `select: false`). -/
structure User where
  id : Nat
  username : String
  email : String
  role : Role
  status : Status
  theme : String
  isOnline : Bool
  socketId : Option Nat
deriving DecidableEq, Repr

/-- The part of an HTTP response the route handlers build:
status code, `success`, `error`, `message`.  Route-specific `data`
payloads live in each handler's result structure. -/
structure Response where
  status : Nat
  success : Bool
  error : Option String
  message : Option String
deriving DecidableEq, Repr

/-- res.status(code).json({success:false, error: msg}) -/
def errResp (code : Nat) (msg : String) : Response :=
  { status := code, success := false, error := some msg, message := none }

/-- res.json({success:true, message: msg}) -/
def okResp (msg : String) : Response :=
  { status := 200, success := true, error := none, message := some msg }

/-- res.json({success:true}) with no message field. -/
def okData : Response :=
  { status := 200, success := true, error := none, message := none }

/-- `protect` middleware (src/unnamed/part_004, lines 7-59): a banned
account is rejected with 403; otherwise the request proceeds.  (The
token checks are outside the model: the caller is already resolved.) -/
def protectCheck (u : User) : Option Response :=
  if u.status = Status.banned then
    some (errResp 403 "Your account has been banned")
  else none

/-- `req.isRestricted` flag set by `protect`. -/
def isRestricted (u : User) : Bool :=
  u.status == Status.restricted

/-- `allowWrite` middleware (src/unnamed/part_004, lines 90-98). -/
def allowWriteCheck (restricted : Bool) : Option Response :=
  if restricted then
    some (errResp 403 "Your account is restricted. You can only view data.")
  else none

/-- `adminOnly` middleware: `user.isAdmin()`. -/
def adminOnlyCheck (u : User) : Option Response :=
  if u.role = Role.admin ∨ u.role = Role.head_admin then none
  else some (errResp 403 "Access denied. Admin privileges required.")

/-- `headAdminOnly` middleware: `user.isHeadAdmin()`. -/
def headAdminOnlyCheck (u : User) : Option Response :=
  if u.role = Role.head_admin then none
  else some (errResp 403 "Access denied. Head Admin privileges required.")

/-- The singleton Threshold document (src/unnamed/part_000, lines 117-151).
Timestamps are modelled as naturals. -/
structure Threshold where
  soil1 : Int
  soil2 : Int
  temp_high : Int
  temp_low : Int
  hum_high : Int
  hum_low : Int
  npk_n : Int
  npk_p : Int
  npk_k : Int
  lastUpdatedBy : Option Nat
  lastSyncedWithArduino : Option Nat
deriving DecidableEq, Repr

/-- Schema defaults of the Threshold document. -/
def defaultThreshold : Threshold :=
  { soil1 := 60, soil2 := 60, temp_high := 35, temp_low := 15,
    hum_high := 80, hum_low := 30, npk_n := 20, npk_p := 20, npk_k := 20,
    lastUpdatedBy := none, lastSyncedWithArduino := none }

/-- A PUT /api/thresholds body: each of the nine valid keys is present
(`some v`) or absent (`none`); unknown keys are ignored by the handler
and so are not modelled. -/
structure ThresholdUpdates where
  soil1 : Option Int
  soil2 : Option Int
  temp_high : Option Int
  temp_low : Option Int
  hum_high : Option Int
  hum_low : Option Int
  npk_n : Option Int
  npk_p : Option Int
  npk_k : Option Int
deriving DecidableEq, Repr

/-- The body with no key present. -/
def emptyUpdates : ThresholdUpdates :=
  { soil1 := none, soil2 := none, temp_high := none, temp_low := none,
    hum_high := none, hum_low := none, npk_n := none, npk_p := none,
    npk_k := none }

/-- The update loop of PUT /api/thresholds (src/routes/thresholds.js,
lines 60-66): for each valid key, if the body defines it the stored
field takes the body's value, otherwise it is untouched. -/
def applyUpdates (t : Threshold) (upd : ThresholdUpdates) : Threshold :=
  { t with
    soil1 := upd.soil1.getD t.soil1,
    soil2 := upd.soil2.getD t.soil2,
    temp_high := upd.temp_high.getD t.temp_high,
    temp_low := upd.temp_low.getD t.temp_low,
    hum_high := upd.hum_high.getD t.hum_high,
    hum_low := upd.hum_low.getD t.hum_low,
    npk_n := upd.npk_n.getD t.npk_n,
    npk_p := upd.npk_p.getD t.npk_p,
    npk_k := upd.npk_k.getD t.npk_k }

/-- A system alert's level (src/unnamed/part_000, lines 186-190). -/
inductive AlertLevel
  | INFO
  | WARNING
  | ERROR
  | CRITICAL
deriving DecidableEq, Repr

/-- One alert of a POST /api/pi/alerts batch. -/
structure AlertIn where
  level : AlertLevel
  message : String
  timestamp : Option Nat
deriving DecidableEq, Repr

/-- A stored SystemAlert document. -/
structure SystemAlert where
  level : AlertLevel
  message : String
  source : String
  timestamp : Nat
deriving DecidableEq, Repr

/-- A Socket.IO emission.  Every constructor but `force_disconnect`
is an `io.emit` broadcast to every live connection; `force_disconnect`
is `io.to(socketId).emit`, targeted at one connection. -/
inductive Emit
  | user_online (userId : Nat)
  | user_offline (userId : Nat)
  | threshold_update (changed : ThresholdUpdates) (updatedBy : String)
  | manual_control (actuator : String) (state : Bool) (pwm : Option Int)
      (controlledBy : String)
  | auto_mode_resumed (resumedBy : String)
  | system_alert (a : SystemAlert)
  | force_disconnect (socket : Nat) (reason : String)
deriving DecidableEq, Repr

/-- Whether a live connection with the given socket id receives an
emission: broadcasts reach every connection, `io.to` only its target. -/
def receives (sid : Nat) : Emit → Bool
  | Emit.force_disconnect target _ => sid == target
  | _ => true

/-- Is the emission a `force_disconnect`? -/
def isForceDisconnect : Emit → Bool
  | Emit.force_disconnect _ _ => true
  | _ => false

/-- Result of PUT /api/thresholds: the response, the threshold document
it leaves stored, what was passed to the relay (none when the relay was
never called), and the broadcasts. -/
structure PutThresholdsResult where
  resp : Response
  thresholds : Threshold
  relayed : Option ThresholdUpdates
  events : List Emit
deriving DecidableEq, Repr

/-- PUT /api/thresholds (src/routes/thresholds.js, lines 51-121).
`relayOk` is the outcome of the axios call to the Pi; `now` the clock.
The durable update happens first; on relay success
`lastSyncedWithArduino` is stamped, on relay failure the error is caught
and the request still returns the plain success response (the catch
block only logs). -/
def putThresholds (caller : User) (t : Threshold) (upd : ThresholdUpdates)
    (relayOk : Bool) (now : Nat) : PutThresholdsResult :=
  match protectCheck caller with
  | some r => { resp := r, thresholds := t, relayed := none, events := [] }
  | none =>
    match allowWriteCheck (isRestricted caller) with
    | some r => { resp := r, thresholds := t, relayed := none, events := [] }
    | none =>
      let t1 := { applyUpdates t upd with lastUpdatedBy := some caller.id }
      let t2 := if relayOk then { t1 with lastSyncedWithArduino := some now }
                else t1
      { resp := okResp "Thresholds updated successfully",
        thresholds := t2,
        relayed := some upd,
        events := [Emit.threshold_update upd caller.username] }

/-- The `data` object GET /api/thresholds returns
(src/routes/thresholds.js, lines 17-46). -/
structure ThresholdData where
  soil1 : Int
  soil2 : Int
  temp_high : Int
  temp_low : Int
  hum_high : Int
  hum_low : Int
  npk_n : Int
  npk_p : Int
  npk_k : Int
  lastUpdatedBy : Option Nat
  lastSyncedWithArduino : Option Nat
deriving DecidableEq, Repr

/-- The projection GET /api/thresholds applies to the stored document. -/
def thresholdData (t : Threshold) : ThresholdData :=
  { soil1 := t.soil1, soil2 := t.soil2, temp_high := t.temp_high,
    temp_low := t.temp_low, hum_high := t.hum_high, hum_low := t.hum_low,
    npk_n := t.npk_n, npk_p := t.npk_p, npk_k := t.npk_k,
    lastUpdatedBy := t.lastUpdatedBy,
    lastSyncedWithArduino := t.lastSyncedWithArduino }

/-- GET /api/thresholds: `protect` only, then the data projection. -/
def getThresholds (caller : User) (t : Threshold) :
    Response × Option ThresholdData :=
  match protectCheck caller with
  | some r => (r, none)
  | none => (okData, some (thresholdData t))

/-- The actuator whitelist of POST /api/manual/control
(src/routes/manual.js, lines 19-23). -/
def validActuators : List String :=
  ["pump_water", "pump_nutrient", "fan_exhaust", "peltier",
   "fan_peltier_hot", "fan_peltier_cold"]

/-- `Math.max(0, Math.min(255, parseInt(pwm)))`. -/
def clampPwm (v : Int) : Int :=
  max 0 (min 255 v)

/-- The JSON command POSTed to the Pi's /api/manual. -/
structure PiCommand where
  actuator : String
  state : Bool
  pwm : Option Int
deriving DecidableEq, Repr

/-- Result of POST /api/manual/control: the response, the command handed
to axios (none when no relay call was made), and the broadcasts. -/
structure ManualControlResult where
  resp : Response
  relayAttempt : Option PiCommand
  events : List Emit
deriving DecidableEq, Repr

/-- POST /api/manual/control (src/routes/manual.js, lines 15-105).
The router applies `protect, allowWrite` first.  A pwm field is attached
to the relayed command only when the body carries one AND the actuator
is fan_exhaust or peltier, clamped to [0,255]; the `manual_control`
broadcast spreads the raw body values.  A relay failure is caught and
returned as a 503 with no broadcast. -/
def manualControl (caller : User) (actuator : String) (state : Bool)
    (pwm : Option Int) (relayOk : Bool) : ManualControlResult :=
  match protectCheck caller with
  | some r => { resp := r, relayAttempt := none, events := [] }
  | none =>
    match allowWriteCheck (isRestricted caller) with
    | some r => { resp := r, relayAttempt := none, events := [] }
    | none =>
      if actuator ∈ validActuators then
        let cmd : PiCommand :=
          { actuator := actuator, state := state,
            pwm := match pwm with
              | some v =>
                if actuator = "fan_exhaust" ∨ actuator = "peltier" then
                  some (clampPwm v)
                else none
              | none => none }
        if relayOk then
          { resp := okResp (actuator ++
              (if state then " turned ON" else " turned OFF")),
            relayAttempt := some cmd,
            events := [Emit.manual_control actuator state pwm
              caller.username] }
        else
          { resp := errResp 503
              "Failed to communicate with greenhouse controller",
            relayAttempt := some cmd, events := [] }
      else
        { resp := errResp 400 "Invalid actuator", relayAttempt := none,
          events := [] }

/-- Result of POST /api/manual/auto. -/
structure ManualAutoResult where
  resp : Response
  relayAttempted : Bool
  events : List Emit
deriving DecidableEq, Repr

/-- POST /api/manual/auto (src/routes/manual.js, lines 112-157):
relay-only; a relay failure lands in the outer catch and returns 503. -/
def manualAuto (caller : User) (relayOk : Bool) : ManualAutoResult :=
  match protectCheck caller with
  | some r => { resp := r, relayAttempted := false, events := [] }
  | none =>
    match allowWriteCheck (isRestricted caller) with
    | some r => { resp := r, relayAttempted := false, events := [] }
    | none =>
      if relayOk then
        { resp := okResp "Automatic mode resumed", relayAttempted := true,
          events := [Emit.auto_mode_resumed caller.username] }
      else
        { resp := errResp 503
            "Failed to communicate with greenhouse controller",
          relayAttempted := true, events := [] }

/-- Result of a settings route: the response and the caller record it
leaves stored. -/
structure SettingsResult where
  resp : Response
  user : User
deriving DecidableEq, Repr

/-- PUT /api/settings/username (src/routes/settings.js, lines 15-65):
`protect` (router-level) then route-level `allowWrite`, the non-empty
check, the uniqueness check against every other account, then the
rename.  `others` is the rest of the user collection. -/
def putUsername (caller : User) (others : List User)
    (newUsername : String) : SettingsResult :=
  match protectCheck caller with
  | some r => { resp := r, user := caller }
  | none =>
    match allowWriteCheck (isRestricted caller) with
    | some r => { resp := r, user := caller }
    | none =>
      if newUsername = "" then
        { resp := errResp 400 "New username required", user := caller }
      else if others.any
          (fun u => u.username == newUsername && u.id != caller.id) then
        { resp := errResp 400 "Username already taken", user := caller }
      else
        { resp := okResp "Username updated successfully",
          user := { caller with username := newUsername } }

/-- The valid themes of PUT /api/settings/theme. -/
def validThemes : List String :=
  ["light", "dark", "auto"]

/-- PUT /api/settings/theme (src/routes/settings.js, lines 72-99):
router-level `protect` only — the route declares NO `allowWrite` — then
the theme whitelist check, then the write. -/
def putTheme (caller : User) (theme : String) : SettingsResult :=
  match protectCheck caller with
  | some r => { resp := r, user := caller }
  | none =>
    if theme ∈ validThemes then
      { resp := okResp "Theme updated successfully",
        user := { caller with theme := theme } }
    else
      { resp := errResp 400 "Invalid theme. Choose: light, dark, or auto",
        user := caller }

/-- The `data` object GET /api/settings returns. -/
structure SettingsData where
  username : String
  email : String
  theme : String
  role : Role
  status : Status
deriving DecidableEq, Repr

/-- GET /api/settings (src/routes/settings.js, lines 106-117):
`protect` only. -/
def getSettings (caller : User) : Response × Option SettingsData :=
  match protectCheck caller with
  | some r => (r, none)
  | none =>
    (okData, some { username := caller.username, email := caller.email,
                    theme := caller.theme, role := caller.role,
                    status := caller.status })

/-- PUT /api/auth/change-password (src/middleware/auth.js, lines
250-297): `protect, allowWrite`, the presence check, the bcrypt compare
(modelled as string equality against the stored password), then the
update.  Returns the response and the stored password afterwards. -/
def changePassword (caller : User) (storedPassword currentPassword
    newPassword : String) : Response × String :=
  match protectCheck caller with
  | some r => (r, storedPassword)
  | none =>
    match allowWriteCheck (isRestricted caller) with
    | some r => (r, storedPassword)
    | none =>
      if currentPassword = "" ∨ newPassword = "" then
        (errResp 400 "Current password and new password required",
         storedPassword)
      else if currentPassword ≠ storedPassword then
        (errResp 401 "Current password is incorrect", storedPassword)
      else
        (okResp "Password changed successfully", newPassword)

/-- Result of DELETE /api/admin/users/:id. -/
structure DeleteResult where
  resp : Response
  deleted : Bool
deriving DecidableEq, Repr

/-- DELETE /api/admin/users/:id (src/unnamed/part_003, lines 63-113).
The admin router applies `protect, adminOnly` to every route.  A
head_admin target is never deleted; an admin target is deleted only by
a head_admin caller. -/
def deleteUser (caller target : User) : DeleteResult :=
  match protectCheck caller with
  | some r => { resp := r, deleted := false }
  | none =>
    match adminOnlyCheck caller with
    | some r => { resp := r, deleted := false }
    | none =>
      if target.role = Role.head_admin then
        { resp := errResp 403 "Cannot delete head admin", deleted := false }
      else if target.role = Role.admin ∧ caller.role ≠ Role.head_admin then
        { resp := errResp 403 "Only head admin can delete other admins",
          deleted := false }
      else
        { resp := okResp ("User " ++ target.username ++
            " deleted successfully"), deleted := true }

/-- Result of an admin route that may rewrite the target account. -/
structure AdminUserResult where
  resp : Response
  target : User
  events : List Emit
deriving DecidableEq, Repr

/-- PUT /api/admin/users/:id/ban (src/unnamed/part_003, lines 118-176):
administrators (admin or head_admin targets) can never be banned; on a
ban of an online target with a recorded socket, one targeted
`force_disconnect` is emitted to that socket. -/
def banUser (caller target : User) (banned : Bool) : AdminUserResult :=
  match protectCheck caller with
  | some r => { resp := r, target := target, events := [] }
  | none =>
    match adminOnlyCheck caller with
    | some r => { resp := r, target := target, events := [] }
    | none =>
      if target.role = Role.head_admin ∨ target.role = Role.admin then
        { resp := errResp 403 "Cannot ban administrators",
          target := target, events := [] }
      else
        { resp := okResp (if banned then "User banned successfully"
            else "User unbanned successfully"),
          target := { target with
            status := if banned then Status.banned else Status.active },
          events :=
            if banned ∧ target.isOnline then
              match target.socketId with
              | some sid =>
                [Emit.force_disconnect sid "Your account has been banned"]
              | none => []
            else [] }

/-- PUT /api/admin/users/:id/restrict (src/unnamed/part_003, lines
181-217): administrators can never be restricted. -/
def restrictUser (caller target : User) (restricted : Bool) :
    AdminUserResult :=
  match protectCheck caller with
  | some r => { resp := r, target := target, events := [] }
  | none =>
    match adminOnlyCheck caller with
    | some r => { resp := r, target := target, events := [] }
    | none =>
      if target.role = Role.head_admin ∨ target.role = Role.admin then
        { resp := errResp 403 "Cannot restrict administrators",
          target := target, events := [] }
      else
        { resp := okResp (if restricted then
            "User restricted successfully"
            else "User unrestricted successfully"),
          target := { target with
            status := if restricted then Status.restricted
              else Status.active },
          events := [] }

/-- PUT /api/admin/users/:id/demote (src/unnamed/part_003, lines
281-331): `headAdminOnly` on top of the router's `protect, adminOnly`;
a head_admin target is never demoted. -/
def demoteUser (caller target : User) : AdminUserResult :=
  match protectCheck caller with
  | some r => { resp := r, target := target, events := [] }
  | none =>
    match adminOnlyCheck caller with
    | some r => { resp := r, target := target, events := [] }
    | none =>
      match headAdminOnlyCheck caller with
      | some r => { resp := r, target := target, events := [] }
      | none =>
        if target.role = Role.head_admin then
          { resp := errResp 403 "Cannot demote head admin",
            target := target, events := [] }
        else if target.role = Role.user then
          { resp := errResp 400 "User is already a regular user",
            target := target, events := [] }
        else
          { resp := okResp (target.username ++
              " demoted to regular user"),
            target := { target with role := Role.user }, events := [] }

/-- The per-identity live-connection view the socket handlers keep in
the User document: `isOnline` and the single `socketId` slot. -/
structure Presence where
  isOnline : Bool
  socketId : Option Nat
deriving DecidableEq, Repr

/-- `io.on('connection')` (src/middleware/auth.js, lines 479-496): the
handler overwrites `isOnline` and `socketId` with the new connection —
a prior mapping is replaced, never accumulated — and broadcasts
`user_online`.  The previous presence is not read. -/
def onConnection (uid : Nat) (_p : Presence) (sid : Nat) :
    Presence × List Emit :=
  ({ isOnline := true, socketId := some sid }, [Emit.user_online uid])

/-- `socket.on('disconnect')` (src/middleware/auth.js, lines 499-516):
the handler unconditionally sets `isOnline := false` and clears
`socketId`, then broadcasts `user_offline`.  It never compares the
disconnecting socket's id (`_sid`) with the currently recorded mapping. -/
def onDisconnect (uid : Nat) (_p : Presence) (_sid : Nat) :
    Presence × List Emit :=
  ({ isOnline := false, socketId := none }, [Emit.user_offline uid])

/-- How POST /api/pi/alerts stores one submitted alert
(src/models/Reading.js, lines 240-246): the source is overwritten to
"pi", a missing timestamp defaults to now. -/
def storeAlert (now : Nat) (a : AlertIn) : SystemAlert :=
  { level := a.level, message := a.message, source := "pi",
    timestamp := a.timestamp.getD now }

/-- Is the alert level one the handler broadcasts? -/
def isBroadcastLevel (l : AlertLevel) : Bool :=
  l == AlertLevel.CRITICAL || l == AlertLevel.ERROR

/-- Result of POST /api/pi/alerts. -/
structure PiAlertsResult where
  resp : Response
  stored : List SystemAlert
  events : List Emit
deriving DecidableEq, Repr

/-- POST /api/pi/alerts (src/models/Reading.js, lines 229-270): the
batch is stored, then each stored alert whose level is CRITICAL or
ERROR is broadcast as `system_alert`, in order. -/
def piAlerts (now : Nat) (alerts : List AlertIn) : PiAlertsResult :=
  let inserted := alerts.map (storeAlert now)
  { resp := okData,
    stored := inserted,
    events := (inserted.filter (fun a => isBroadcastLevel a.level)).map
      Emit.system_alert }

/-- A POST /api/auth/register body. -/
structure RegisterReq where
  username : String
  email : String
  password : String
deriving DecidableEq, Repr

/-- Result of POST /api/auth/register. -/
structure RegisterResult where
  resp : Response
  created : Option User
  store : List User
deriving DecidableEq, Repr

/-- POST /api/auth/register (src/middleware/auth.js, lines 12-64):
presence validation, the duplicate check, then creation with
`role = userCount === 0 ? 'head_admin' : 'user'`.  `store` is the user
collection; a created account's id is modelled as the prior count. -/
def register (store : List User) (r : RegisterReq) : RegisterResult :=
  if r.username = "" ∨ r.email = "" ∨ r.password = "" then
    { resp := errResp 400 "Please provide username, email, and password",
      created := none, store := store }
  else if store.any
      (fun u => u.email == r.email || u.username == r.username) then
    { resp := errResp 400
        "User with this email or username already exists",
      created := none, store := store }
  else
    let role := if store.length = 0 then Role.head_admin else Role.user
    let u : User :=
      { id := store.length, username := r.username, email := r.email,
        role := role, status := Status.active, theme := "light",
        isOnline := false, socketId := none }
    { resp := { status := 201, success := true, error := none,
                message := some "Account created successfully" },
      created := some u, store := store ++ [u] }

/-- A sequence of register calls against the evolving collection. -/
def registerAll (store : List User) (reqs : List RegisterReq) :
    List User :=
  reqs.foldl (fun s r => (register s r).store) store

/-- How many accounts of the collection hold the head_admin role. -/
def headAdminCount (store : List User) : Nat :=
  store.countP (fun u => u.role == Role.head_admin)

/-! ## Concrete accounts used by witnesses and counterexamples -/

/-- A plain active user with a live connection (socket 7). -/
def activeUser : User :=
  { id := 2, username := "bob", email := "bob@example.com",
    role := Role.user, status := Status.active, theme := "light",
    isOnline := true, socketId := some 7 }

/-- A restricted-status user. -/
def restrictedUser : User :=
  { id := 3, username := "carol", email := "carol@example.com",
    role := Role.user, status := Status.restricted, theme := "light",
    isOnline := false, socketId := none }

/-- A head_admin account. -/
def headAdminUser : User :=
  { id := 0, username := "root", email := "root@example.com",
    role := Role.head_admin, status := Status.active, theme := "light",
    isOnline := false, socketId := none }

/-- An admin (not head_admin) account. -/
def adminCaller : User :=
  { id := 4, username := "erin", email := "erin@example.com",
    role := Role.admin, status := Status.active, theme := "light",
    isOnline := false, socketId := none }

/-- A plain user who is online with socket 42. -/
def onlineTarget : User :=
  { id := 5, username := "dave", email := "dave@example.com",
    role := Role.user, status := Status.active, theme := "light",
    isOnline := true, socketId := some 42 }

/-- A body that updates only soil1. -/
def soil1Update : ThresholdUpdates :=
  { emptyUpdates with soil1 := some 70 }

/-- A first registration request. -/
def regReq1 : RegisterReq :=
  { username := "alice", email := "alice@example.com",
    password := "secret1" }

/-- The account `register` creates for `regReq1` on an empty store. -/
def regUser1 : User :=
  { id := 0, username := "alice", email := "alice@example.com",
    role := Role.head_admin, status := Status.active, theme := "light",
    isOnline := false, socketId := none }

/-! ## Helper lemmas -/

/-- headAdminCount over an appended singleton. -/
theorem headAdminCount_append (s : List User) (u : User) :
    headAdminCount (s ++ [u]) =
      headAdminCount s + (if u.role = Role.head_admin then 1 else 0) := by
  simp [headAdminCount, List.countP_append, List.countP_cons]

/-- One register call keeps the head_admin count at most one. -/
theorem headAdminCount_register (s : List User) (r : RegisterReq)
    (h : headAdminCount s ≤ 1) :
    headAdminCount (register s r).store ≤ 1 := by
  unfold register
  by_cases h1 : r.username = "" ∨ r.email = "" ∨ r.password = ""
  · simp [h1, h]
  · simp only [if_neg h1]
    by_cases h2 :
        s.any (fun u => u.email == r.email || u.username == r.username) = true
    · simp [h2, h]
    · simp only [if_neg h2]
      by_cases h3 : s.length = 0
      · have hs : s = [] := List.length_eq_zero.mp h3
        subst hs
        simp [headAdminCount, List.countP_cons]
      · simp only [if_neg h3]
        rw [headAdminCount_append]
        simp [h]

/-- A register sequence keeps the head_admin count at most one. -/
theorem headAdminCount_registerAll (reqs : List RegisterReq)
    (s : List User) (h : headAdminCount s ≤ 1) :
    headAdminCount (registerAll s reqs) ≤ 1 := by
  induction reqs generalizing s with
  | nil => simpa [registerAll] using h
  | cons r rs ih =>
    simp only [registerAll, List.foldl_cons]
    exact ih _ (headAdminCount_register s r h)

/-! ## Claims -/

/-- C1, counterexample: the claim says every write-class operation —
theme change included — fails with Forbidden for a restricted identity
and changes no state.  In the code PUT /api/settings/theme carries no
`allowWrite` middleware, so a restricted user's theme change returns
200, success, and the stored theme changes. -/
theorem c1_counterexample :
    restrictedUser.status = Status.restricted ∧
    (putTheme restrictedUser "dark").resp.status = 200 ∧
    (putTheme restrictedUser "dark").resp.success = true ∧
    (putTheme restrictedUser "dark").user.theme = "dark" := by decide

/-- C1, amended: for every restricted-status identity, the write-class
operations guarded by `allowWrite` (threshold update, actuator command,
auto-mode resume, username change, password change) fail with 403
Forbidden and make no state change (no relay call, no broadcast), and
the read-class operations succeed — but the theme change, which the
code leaves unguarded, succeeds and updates the stored theme. -/
theorem c1_restricted_amended (caller : User) (t : Threshold)
    (upd : ThresholdUpdates) (relayOk : Bool) (now : Nat) (a : String)
    (st : Bool) (p : Option Int) (others : List User)
    (newName th storedP curP newP : String)
    (h : caller.status = Status.restricted) :
    ((putThresholds caller t upd relayOk now).resp.status = 403 ∧
     (putThresholds caller t upd relayOk now).thresholds = t ∧
     (putThresholds caller t upd relayOk now).relayed = none ∧
     (putThresholds caller t upd relayOk now).events = []) ∧
    ((manualControl caller a st p relayOk).resp.status = 403 ∧
     (manualControl caller a st p relayOk).relayAttempt = none ∧
     (manualControl caller a st p relayOk).events = []) ∧
    ((manualAuto caller relayOk).resp.status = 403 ∧
     (manualAuto caller relayOk).relayAttempted = false) ∧
    ((putUsername caller others newName).resp.status = 403 ∧
     (putUsername caller others newName).user = caller) ∧
    ((changePassword caller storedP curP newP).1.status = 403 ∧
     (changePassword caller storedP curP newP).2 = storedP) ∧
    (th ∈ validThemes →
      (putTheme caller th).resp.status = 200 ∧
      (putTheme caller th).resp.success = true ∧
      (putTheme caller th).user.theme = th) ∧
    ((getThresholds caller t).1.status = 200 ∧
     (getThresholds caller t).2 = some (thresholdData t)) ∧
    ((getSettings caller).1.status = 200 ∧
     (getSettings caller).2 ≠ none) := by
  have hp : protectCheck caller = none := by simp [protectCheck, h]
  have hw : allowWriteCheck (isRestricted caller) =
      some (errResp 403
        "Your account is restricted. You can only view data.") := by
    simp [allowWriteCheck, isRestricted, h]
  refine ⟨⟨?_, ?_, ?_, ?_⟩, ⟨?_, ?_, ?_⟩, ⟨?_, ?_⟩, ⟨?_, ?_⟩, ⟨?_, ?_⟩,
    ?_, ⟨?_, ?_⟩, ⟨?_, ?_⟩⟩ <;>
    first
      | (intro hth
         refine ⟨?_, ?_, ?_⟩ <;> simp [putTheme, hp, hth, okResp])
      | simp [putThresholds, manualControl, manualAuto, putUsername,
              changePassword, getThresholds, getSettings, hp, hw, errResp,
              okData]

/-- C1, witness: the amended theorem at the concrete restricted user. -/
theorem c1_witness :
    (putThresholds restrictedUser defaultThreshold emptyUpdates true
      0).resp.status = 403 ∧
    (manualControl restrictedUser "pump_water" true (some 400)
      true).relayAttempt = none := by
  have h := c1_restricted_amended restrictedUser defaultThreshold
    emptyUpdates true 0 "pump_water" true (some 400) [] "newname" "dark"
    "pw" "pw" "pw2" rfl
  exact ⟨h.1.1, h.2.1.2.1⟩

/-- C2: a head_admin target is never deleted, banned, restricted or
demoted — every such attempt, by any caller (head_admin on themselves
included), returns 403 and leaves the target unchanged; and an admin
caller who is not head_admin can neither delete another admin nor
demote anyone. -/
theorem c2_head_admin_protected (caller target : User) (b r : Bool)
    (ht : target.role = Role.head_admin) :
    ((deleteUser caller target).resp.status = 403 ∧
     (deleteUser caller target).deleted = false) ∧
    ((banUser caller target b).resp.status = 403 ∧
     (banUser caller target b).target = target ∧
     (banUser caller target b).events = []) ∧
    ((restrictUser caller target r).resp.status = 403 ∧
     (restrictUser caller target r).target = target ∧
     (restrictUser caller target r).events = []) ∧
    ((demoteUser caller target).resp.status = 403 ∧
     (demoteUser caller target).target = target) ∧
    (∀ c t2 : User, c.role = Role.admin → t2.role = Role.admin →
      (deleteUser c t2).resp.status = 403 ∧
      (deleteUser c t2).deleted = false) ∧
    (∀ c t2 : User, c.role = Role.admin →
      (demoteUser c t2).resp.status = 403 ∧
      (demoteUser c t2).target = t2) := by
  refine ⟨?_, ?_, ?_, ?_, ?_, ?_⟩
  · rcases hs : caller.status with _ | _ | _ <;>
      rcases hr : caller.role with _ | _ | _ <;>
        simp [deleteUser, protectCheck, adminOnlyCheck, hs, hr, ht, errResp]
  · rcases hs : caller.status with _ | _ | _ <;>
      rcases hr : caller.role with _ | _ | _ <;>
        simp [banUser, protectCheck, adminOnlyCheck, hs, hr, ht, errResp]
  · rcases hs : caller.status with _ | _ | _ <;>
      rcases hr : caller.role with _ | _ | _ <;>
        simp [restrictUser, protectCheck, adminOnlyCheck, hs, hr, ht,
          errResp]
  · rcases hs : caller.status with _ | _ | _ <;>
      rcases hr : caller.role with _ | _ | _ <;>
        simp [demoteUser, protectCheck, adminOnlyCheck, headAdminOnlyCheck,
          hs, hr, ht, errResp]
  · intro c t2 hc ht2
    rcases hs : c.status with _ | _ | _ <;>
      simp [deleteUser, protectCheck, adminOnlyCheck, hs, hc, ht2, errResp]
  · intro c t2 hc
    rcases hs : c.status with _ | _ | _ <;>
      simp [demoteUser, protectCheck, adminOnlyCheck, headAdminOnlyCheck,
        hs, hc, errResp]

/-- C2, witness: a head_admin attempting to delete, ban and demote
themselves is refused with 403 each time. -/
theorem c2_witness :
    (deleteUser headAdminUser headAdminUser).resp.status = 403 ∧
    (banUser headAdminUser headAdminUser true).target = headAdminUser ∧
    (demoteUser headAdminUser headAdminUser).resp.status = 403 := by
  have h := c2_head_admin_protected headAdminUser headAdminUser true true
    rfl
  exact ⟨h.1.1, h.2.1.2.1, h.2.2.2.1.1⟩

/-- C3, counterexample: the claim says every whitelisted actuator's pwm
is relayed as clamp(v,0,255) and broadcast clamped — e.g. pwm=400 for
pump_water relayed and broadcast as 255.  In the code, pwm is attached
to the relayed command only for fan_exhaust and peltier — for
pump_water the command carries NO pwm — and the `manual_control`
broadcast spreads the raw body value 400, not 255. -/
theorem c3_counterexample :
    activeUser.status = Status.active ∧
    "pump_water" ∈ validActuators ∧
    (manualControl activeUser "pump_water" true (some 400)
      true).relayAttempt =
      some { actuator := "pump_water", state := true, pwm := none } ∧
    (manualControl activeUser "pump_water" true (some 400)
      true).relayAttempt ≠
      some { actuator := "pump_water", state := true, pwm := some 255 } ∧
    (manualControl activeUser "pump_water" true (some 400) true).events =
      [Emit.manual_control "pump_water" true (some 400) "bob"] ∧
    (manualControl activeUser "pump_water" true (some 400) true).events ≠
      [Emit.manual_control "pump_water" true (some 255) "bob"] := by
  decide

/-- C3, amended: for an active caller and a whitelisted actuator, a
supplied pwm v is relayed as clamp(v,0,255) when the actuator is
fan_exhaust or peltier and is omitted from the relayed command for
every other actuator; on relay success the `manual_control` broadcast
carries the raw, unclamped v.  clamp behaves as specified on [0,255],
below 0 and above 255. -/
theorem c3_pwm_clamp_amended (caller : User) (a : String) (st : Bool)
    (v : Int) (h : caller.status = Status.active)
    (ha : a ∈ validActuators) :
    ((a = "fan_exhaust" ∨ a = "peltier") →
      (manualControl caller a st (some v) true).relayAttempt =
        some { actuator := a, state := st, pwm := some (clampPwm v) }) ∧
    (¬(a = "fan_exhaust" ∨ a = "peltier") →
      (manualControl caller a st (some v) true).relayAttempt =
        some { actuator := a, state := st, pwm := none }) ∧
    (manualControl caller a st (some v) true).events =
      [Emit.manual_control a st (some v) caller.username] ∧
    0 ≤ clampPwm v ∧ clampPwm v ≤ 255 ∧
    (0 ≤ v → v ≤ 255 → clampPwm v = v) ∧
    (v < 0 → clampPwm v = 0) ∧
    (255 < v → clampPwm v = 255) := by
  have hp : protectCheck caller = none := by simp [protectCheck, h]
  have hw : allowWriteCheck (isRestricted caller) = none := by
    simp [allowWriteCheck, isRestricted, h]
  refine ⟨fun hfe => ?_, fun hfe => ?_, ?_, ?_, ?_, fun h1 h2 => ?_,
    fun h1 => ?_, fun h1 => ?_⟩
  · simp [manualControl, hp, hw, ha, hfe]
  · simp [manualControl, hp, hw, ha, hfe]
  · simp [manualControl, hp, hw, ha]
  · simp [clampPwm]
  · simp only [clampPwm]; omega
  · simp only [clampPwm]; omega
  · simp only [clampPwm]; omega
  · simp only [clampPwm]; omega

/-- C3, witness: fan_exhaust at pwm 400 is relayed clamped to 255 while
the broadcast carries the raw 400. -/
theorem c3_witness :
    (manualControl activeUser "fan_exhaust" true (some 400)
      true).relayAttempt =
      some { actuator := "fan_exhaust", state := true, pwm := some 255 } ∧
    (manualControl activeUser "fan_exhaust" true (some 400) true).events =
      [Emit.manual_control "fan_exhaust" true (some 400) "bob"] := by
  have h := c3_pwm_clamp_amended activeUser "fan_exhaust" true 400 rfl
    (by decide)
  have h1 := h.1 (Or.inl rfl)
  have hc : clampPwm 400 = 255 := by decide
  rw [hc] at h1
  exact ⟨h1, h.2.2.1⟩

/-- C4, counterexample: the claim says a relay failure during a
threshold write is reported to the caller as a distinct warning-level
condition.  In the code the catch block only logs: the response under
relay failure is byte-identical to the response under relay success —
plain 200/success with no warning or error field. -/
theorem c4_counterexample :
    (putThresholds activeUser defaultThreshold emptyUpdates false 9).resp =
      (putThresholds activeUser defaultThreshold emptyUpdates true
        9).resp ∧
    (putThresholds activeUser defaultThreshold emptyUpdates false
      9).resp.success = true ∧
    (putThresholds activeUser defaultThreshold emptyUpdates false
      9).resp.error = none ∧
    (putThresholds activeUser defaultThreshold emptyUpdates false
      9).resp.message = some "Thresholds updated successfully" :=
  ⟨rfl, rfl, rfl, rfl⟩

/-- C4, amended: a relay failure during a threshold write is non-fatal
— the operation still succeeds, but the failure is NOT reported to the
caller: the response is identical to the all-success response (only the
stale lastSyncedWithArduino in the returned data betrays it) — whereas
a relay failure during a pure actuator command is fatal: 503, failure,
no broadcast. -/
theorem c4_relay_failure_amended (caller : User) (t : Threshold)
    (upd : ThresholdUpdates) (now : Nat) (a : String) (st : Bool)
    (p : Option Int) (h : caller.status = Status.active) :
    ((putThresholds caller t upd false now).resp =
       (putThresholds caller t upd true now).resp ∧
     (putThresholds caller t upd false now).resp.status = 200 ∧
     (putThresholds caller t upd false now).resp.success = true ∧
     (putThresholds caller t upd false now).resp.error = none) ∧
    (a ∈ validActuators →
      (manualControl caller a st p false).resp.status = 503 ∧
      (manualControl caller a st p false).resp.success = false ∧
      (manualControl caller a st p false).events = []) := by
  have hp : protectCheck caller = none := by simp [protectCheck, h]
  have hw : allowWriteCheck (isRestricted caller) = none := by
    simp [allowWriteCheck, isRestricted, h]
  constructor
  · refine ⟨?_, ?_, ?_, ?_⟩ <;> simp [putThresholds, hp, hw, okResp]
  · intro ha
    refine ⟨?_, ?_, ?_⟩ <;> simp [manualControl, hp, hw, ha, errResp]

/-- C4, witness: the amended theorem at concrete inputs — threshold
write with failed relay returns 200, actuator command with failed relay
returns 503. -/
theorem c4_witness :
    (putThresholds activeUser defaultThreshold emptyUpdates false
      9).resp.status = 200 ∧
    (manualControl activeUser "pump_water" true none false).resp.status =
      503 := by
  have h := c4_relay_failure_amended activeUser defaultThreshold
    emptyUpdates 9 "pump_water" true none rfl
  exact ⟨h.1.2.1, (h.2 (by decide)).1⟩

/-- C5: a threshold write whose relay phase fails keeps the durable
update (a subsequent GET returns the new field values) and leaves
lastSyncedWithArduino exactly as it was before the write. -/
theorem c5_durable_stands (caller : User) (t : Threshold)
    (upd : ThresholdUpdates) (now : Nat)
    (h : caller.status = Status.active) :
    (putThresholds caller t upd false now).thresholds.lastSyncedWithArduino
      = t.lastSyncedWithArduino ∧
    (putThresholds caller t upd false now).resp.status = 200 ∧
    (putThresholds caller t upd false now).resp.success = true ∧
    (getThresholds caller
      (putThresholds caller t upd false now).thresholds).2 =
      some (thresholdData
        (putThresholds caller t upd false now).thresholds) ∧
    (∀ v, upd.soil1 = some v → (thresholdData
      (putThresholds caller t upd false now).thresholds).soil1 = v) ∧
    (∀ v, upd.soil2 = some v → (thresholdData
      (putThresholds caller t upd false now).thresholds).soil2 = v) ∧
    (∀ v, upd.temp_high = some v → (thresholdData
      (putThresholds caller t upd false now).thresholds).temp_high = v) ∧
    (∀ v, upd.temp_low = some v → (thresholdData
      (putThresholds caller t upd false now).thresholds).temp_low = v) ∧
    (∀ v, upd.hum_high = some v → (thresholdData
      (putThresholds caller t upd false now).thresholds).hum_high = v) ∧
    (∀ v, upd.hum_low = some v → (thresholdData
      (putThresholds caller t upd false now).thresholds).hum_low = v) ∧
    (∀ v, upd.npk_n = some v → (thresholdData
      (putThresholds caller t upd false now).thresholds).npk_n = v) ∧
    (∀ v, upd.npk_p = some v → (thresholdData
      (putThresholds caller t upd false now).thresholds).npk_p = v) ∧
    (∀ v, upd.npk_k = some v → (thresholdData
      (putThresholds caller t upd false now).thresholds).npk_k = v) := by
  have hp : protectCheck caller = none := by simp [protectCheck, h]
  have hw : allowWriteCheck (isRestricted caller) = none := by
    simp [allowWriteCheck, isRestricted, h]
  refine ⟨?_, ?_, ?_, ?_, ?_, ?_, ?_, ?_, ?_, ?_, ?_, ?_, ?_⟩ <;>
    first
      | (intro v hf
         simp [putThresholds, hp, hw, applyUpdates, thresholdData, hf])
      | simp [putThresholds, hp, hw, applyUpdates, okResp, getThresholds,
          thresholdData]

/-- C5, witness: the theorem at a concrete soil1-only update with the
relay failing. -/
theorem c5_witness :
    (putThresholds activeUser defaultThreshold soil1Update false
      9).thresholds.lastSyncedWithArduino =
      defaultThreshold.lastSyncedWithArduino ∧
    (thresholdData (putThresholds activeUser defaultThreshold soil1Update
      false 9).thresholds).soil1 = 70 := by
  have h := c5_durable_stands activeUser defaultThreshold soil1Update 9
    rfl
  exact ⟨h.1, h.2.2.2.2.1 70 rfl⟩

/-- C6, counterexample: the claim says a disconnect from a stale
connection (one that is no longer the current mapping) is a no-op that
does not mark the user offline.  In the code the disconnect handler
never compares socket ids: after connecting on socket 10 then socket 20
(mapping = 20), the stale socket 10's disconnect still sets
isOnline = false, clears the mapping and broadcasts `user_offline`. -/
theorem c6_counterexample :
    ((onConnection 1 (onConnection 1 ⟨false, none⟩ 10).1 20).1).socketId =
      some 20 ∧
    ((onDisconnect 1 (onConnection 1 (onConnection 1 ⟨false, none⟩ 10).1
      20).1 10).1).isOnline = false ∧
    ((onDisconnect 1 (onConnection 1 (onConnection 1 ⟨false, none⟩ 10).1
      20).1 10).1).socketId = none ∧
    (onDisconnect 1 (onConnection 1 (onConnection 1 ⟨false, none⟩ 10).1
      20).1 10).2 = [Emit.user_offline 1] := by
  decide

/-- C6, amended: connecting twice does leave exactly one
live-connection mapping (the second connection) — but a subsequent
disconnect event from the first, stale connection is NOT a no-op: it
marks the identity offline, clears the mapping and broadcasts
`user_offline`, because the handler never checks whether the
disconnecting socket is the current mapping. -/
theorem c6_presence_amended (uid : Nat) (p : Presence) (s1 s2 : Nat) :
    ((onConnection uid (onConnection uid p s1).1 s2).1.socketId =
      some s2) ∧
    ((onConnection uid (onConnection uid p s1).1 s2).1.isOnline = true) ∧
    ((onDisconnect uid (onConnection uid (onConnection uid p s1).1 s2).1
      s1).1.isOnline = false) ∧
    ((onDisconnect uid (onConnection uid (onConnection uid p s1).1 s2).1
      s1).1.socketId = none) ∧
    ((onDisconnect uid (onConnection uid (onConnection uid p s1).1 s2).1
      s1).2 = [Emit.user_offline uid]) := by
  simp [onConnection, onDisconnect]

/-- C7: banning a plain user who is online with a recorded socket emits
exactly one `force_disconnect`, targeted so that only that socket
receives it; banning a user who is not online emits none. -/
theorem c7_force_disconnect (caller target : User) (s : Nat)
    (hcs : caller.status ≠ Status.banned)
    (hcr : caller.role = Role.admin ∨ caller.role = Role.head_admin)
    (ht : target.role = Role.user) :
    (target.isOnline = true → target.socketId = some s →
      (banUser caller target true).events =
        [Emit.force_disconnect s "Your account has been banned"] ∧
      ((banUser caller target true).events.countP isForceDisconnect =
        1) ∧
      (∀ sid, sid ≠ s →
        ((banUser caller target true).events.filter (receives sid)) =
          []) ∧
      (banUser caller target true).target.status = Status.banned) ∧
    (target.isOnline = false →
      (banUser caller target true).events = [] ∧
      ((banUser caller target true).events.countP isForceDisconnect =
        0)) := by
  constructor
  · intro hon hsid
    rcases hcr with hr | hr <;>
      refine ⟨?_, ?_, ?_, ?_⟩ <;>
        simp [banUser, protectCheck, adminOnlyCheck, hcs, hr, ht, hon,
          hsid, receives, isForceDisconnect, List.countP, List.countP.go]
  · intro hoff
    rcases hcr with hr | hr <;>
      constructor <;>
        simp [banUser, protectCheck, adminOnlyCheck, hcs, hr, ht, hoff]

/-- C7, witness: banning the online `dave` (socket 42) emits the single
targeted `force_disconnect` and sets his status to banned. -/
theorem c7_witness :
    (banUser adminCaller onlineTarget true).events =
      [Emit.force_disconnect 42 "Your account has been banned"] ∧
    (banUser adminCaller onlineTarget true).target.status =
      Status.banned := by
  have h := c7_force_disconnect adminCaller onlineTarget 42 (by decide)
    (Or.inl rfl) rfl
  exact ⟨(h.1 rfl rfl).1, (h.1 rfl rfl).2.2.2⟩

/-- C8: for a batch submitted to POST /api/pi/alerts, a `system_alert`
broadcast is emitted for a stored alert if and only if its level is
ERROR or CRITICAL; INFO and WARNING alerts are stored but never
broadcast. -/
theorem c8_alert_broadcast_iff (now : Nat) (alerts : List AlertIn)
    (a : SystemAlert) :
    Emit.system_alert a ∈ (piAlerts now alerts).events ↔
      (a ∈ (piAlerts now alerts).stored ∧
       (a.level = AlertLevel.ERROR ∨ a.level = AlertLevel.CRITICAL)) := by
  simp [piAlerts, List.mem_map, List.mem_filter, isBroadcastLevel]
  intro _ _ _
  exact or_comm

/-- C9: a threshold update touches only the fields the request names —
every one of the nine setpoints the body omits keeps exactly its
previous value, whatever the relay outcome. -/
theorem c9_partial_update_frame (caller : User) (t : Threshold)
    (upd : ThresholdUpdates) (relayOk : Bool) (now : Nat)
    (h : caller.status = Status.active) :
    (upd.soil1 = none →
      (putThresholds caller t upd relayOk now).thresholds.soil1 =
        t.soil1) ∧
    (upd.soil2 = none →
      (putThresholds caller t upd relayOk now).thresholds.soil2 =
        t.soil2) ∧
    (upd.temp_high = none →
      (putThresholds caller t upd relayOk now).thresholds.temp_high =
        t.temp_high) ∧
    (upd.temp_low = none →
      (putThresholds caller t upd relayOk now).thresholds.temp_low =
        t.temp_low) ∧
    (upd.hum_high = none →
      (putThresholds caller t upd relayOk now).thresholds.hum_high =
        t.hum_high) ∧
    (upd.hum_low = none →
      (putThresholds caller t upd relayOk now).thresholds.hum_low =
        t.hum_low) ∧
    (upd.npk_n = none →
      (putThresholds caller t upd relayOk now).thresholds.npk_n =
        t.npk_n) ∧
    (upd.npk_p = none →
      (putThresholds caller t upd relayOk now).thresholds.npk_p =
        t.npk_p) ∧
    (upd.npk_k = none →
      (putThresholds caller t upd relayOk now).thresholds.npk_k =
        t.npk_k) := by
  have hp : protectCheck caller = none := by simp [protectCheck, h]
  have hw : allowWriteCheck (isRestricted caller) = none := by
    simp [allowWriteCheck, isRestricted, h]
  cases relayOk <;>
    (refine ⟨?_, ?_, ?_, ?_, ?_, ?_, ?_, ?_, ?_⟩ <;>
      (intro hf; simp [putThresholds, hp, hw, applyUpdates, hf]))

/-- C9, witness: a soil1-only update leaves soil2 at its default. -/
theorem c9_witness :
    (putThresholds activeUser defaultThreshold soil1Update true
      3).thresholds.soil2 = defaultThreshold.soil2 := by
  have h := c9_partial_update_frame activeUser defaultThreshold
    soil1Update true 3 rfl
  exact h.2.1 rfl

/-- C10: registration assigns head_admin exactly when the user
collection is empty, user otherwise, and any sequence of registrations
from an empty collection yields at most one head_admin account. -/
theorem c10_first_user_head_admin (store : List User) (r : RegisterReq)
    (u : User) (h : (register store r).created = some u) :
    (store = [] → u.role = Role.head_admin) ∧
    (store ≠ [] → u.role = Role.user) ∧
    (∀ reqs : List RegisterReq,
      headAdminCount (registerAll [] reqs) ≤ 1) := by
  refine ⟨?_, ?_, ?_⟩
  · intro hs
    subst hs
    by_cases h1 : r.username = "" ∨ r.email = "" ∨ r.password = ""
    · simp [register, h1] at h
    · simp [register, h1] at h
      rw [← h]
  · intro hs
    by_cases h1 : r.username = "" ∨ r.email = "" ∨ r.password = ""
    · simp [register, h1] at h
    · by_cases h2 : store.any
          (fun x => x.email == r.email || x.username == r.username) = true
      · simp [register, h1, h2] at h
      · have h3 : store.length ≠ 0 := by
          simpa [List.length_eq_zero] using hs
        simp [register, h1, h2, h3] at h
        rw [← h]
  · intro reqs
    exact headAdminCount_registerAll reqs [] (by simp [headAdminCount])

/-- C10, witness: registering alice into an empty collection creates
her as head_admin. -/
theorem c10_witness : regUser1.role = Role.head_admin := by
  have h := c10_first_user_head_admin [] regReq1 regUser1 (by decide)
  exact h.1 rfl

end GreenGiant
